import Mathlib

/-!
Verification of the loan-origination core (MCP_Loan_approval).

Shallow embedding of the Python sources:
  * `utils/emi_calculator.py`   — EMI formula and interest brackets
  * `agents/underwriting_agent.py` — eligibility rules and rate composition
  * `agents/verification_agent.py` + `services/mock_data.py` — KYC validation
  * `agents/sales_agent.py`     — requirement collection / quote
  * `agents/master_agent.py`    — orchestrator stage machine and messages

Machine reals are modelled by ℚ; the Python call `round(x, 2)` (banker
rounding) is modelled exactly on ℚ by `pyRound2`.
-/

namespace Loan

/-- Python rounding `round` to an integer: round half to even (banker rounding). -/
def roundHalfEven (q : ℚ) : ℤ :=
  if q - ⌊q⌋ < 1/2 then ⌊q⌋
  else if 1/2 < q - ⌊q⌋ then ⌊q⌋ + 1
  else if ⌊q⌋ % 2 = 0 then ⌊q⌋ else ⌊q⌋ + 1

/-- Python rounding `round(x, 2)`. -/
def pyRound2 (q : ℚ) : ℚ := (roundHalfEven (q * 100) : ℚ) / 100

theorem roundHalfEven_intCast (k : ℤ) : roundHalfEven (k : ℚ) = k := by
  unfold roundHalfEven
  simp

theorem pyRound2_int_div100 (k : ℤ) : pyRound2 ((k : ℚ) / 100) = (k : ℚ) / 100 := by
  unfold pyRound2
  rw [div_mul_cancel₀ _ (by norm_num : (100 : ℚ) ≠ 0), roundHalfEven_intCast]

theorem pyRound2_eq_int_div100 (q : ℚ) : ∃ k : ℤ, pyRound2 q = (k : ℚ) / 100 :=
  ⟨roundHalfEven (q * 100), rfl⟩

theorem roundHalfEven_nonneg {q : ℚ} (h : 0 ≤ q) : 0 ≤ roundHalfEven q := by
  have hf : (0 : ℤ) ≤ ⌊q⌋ := Int.floor_nonneg.mpr h
  unfold roundHalfEven
  split_ifs <;> omega

theorem roundHalfEven_ge_one {q : ℚ} (h : (5 : ℚ)/3 ≤ q) : 1 ≤ roundHalfEven q := by
  have hf : (1 : ℤ) ≤ ⌊q⌋ := Int.le_floor.mpr (by push_cast; linarith)
  unfold roundHalfEven
  split_ifs <;> omega

theorem pyRound2_nonneg {q : ℚ} (h : 0 ≤ q) : 0 ≤ pyRound2 q := by
  have := roundHalfEven_nonneg (q := q * 100) (by positivity)
  unfold pyRound2
  positivity

theorem pyRound2_zero : pyRound2 0 = 0 := by
  have := pyRound2_int_div100 0
  simpa using this

/-! ## EMI calculator (`utils/emi_calculator.py`, `calculate_emi`) -/

/-- Function `calculate_emi` from `utils/emi_calculator.py`.  Tenure is an `int`
in Python; the amortizing formula uses a (possibly negative) integer
exponent, modelled by `zpow` on ℚ. -/
def calculate_emi (principal annual_rate : ℚ) (tenure_months : ℤ) : ℚ :=
  if tenure_months = 0 then 0
  else
    let monthly_rate := annual_rate / (12 * 100)
    if monthly_rate = 0 then principal / (tenure_months : ℚ)
    else pyRound2 (principal * monthly_rate * (1 + monthly_rate) ^ tenure_months /
      ((1 + monthly_rate) ^ tenure_months - 1))

/-- Reference EMI function, written from the words of the spec for claim C4:
0 when tenure is 0; `p/n` (no rounding) when the monthly rate `r/1200`
is 0; otherwise `p·m·(1+m)^n / ((1+m)^n − 1)` rounded to 2 decimals,
with `m = r/1200`. -/
def specEmi (p r : ℚ) (n : ℤ) : ℚ :=
  if n = 0 then 0
  else if r / 1200 = 0 then p / (n : ℚ)
  else pyRound2 (p * (r / 1200) * (1 + r / 1200) ^ n / ((1 + r / 1200) ^ n - 1))

/-! ## Underwriting engine (`agents/underwriting_agent.py`) -/

inductive UnderwritingDecision where
  | APPROVED | CONDITIONAL | REJECTED
deriving DecidableEq, Repr

def MIN_INTEREST_RATE : ℚ := 9.5
def MAX_INTEREST_RATE : ℚ := 18.0
def BASE_RATE : ℚ := 11.0

/-- The `max_amount` bracket table inside `_evaluate_eligibility`. -/
def max_eligible_amount (credit_score : ℤ) (monthly_income : ℚ) : ℤ :=
  if credit_score ≥ 750 ∧ monthly_income ≥ 75000 then 2000000
  else if credit_score ≥ 700 ∧ monthly_income ≥ 50000 then 1000000
  else 500000

/-- Method `_evaluate_eligibility` of `UnderwritingAgent` (decision, approved
amount, rejection reason). -/
def evaluate_eligibility (credit_score : ℤ) (monthly_income : ℚ)
    (requested_amount : ℤ) (estimated_emi : ℚ) :
    UnderwritingDecision × ℤ × String :=
  if credit_score < 700 then
    (.REJECTED, 0, "Credit score below threshold (700)")
  else if estimated_emi > monthly_income * 0.5 then
    (.REJECTED, 0, "EMI exceeds 50% of monthly income")
  else if requested_amount > max_eligible_amount credit_score monthly_income then
    (.CONDITIONAL, max_eligible_amount credit_score monthly_income,
      "Approved for maximum eligible amount")
  else (.APPROVED, requested_amount, "")

/-- The maximum-eligible bracket table as the words of claim C1 give it. -/
def referenceMaxEligible (score : ℤ) (income : ℚ) : ℤ :=
  if score ≥ 750 ∧ income ≥ 75000 then 2000000
  else if score ≥ 700 ∧ income ≥ 50000 then 1000000
  else 500000

/-- Reference eligibility decision, written from the words of claim C1. -/
def referenceEligibility (score : ℤ) (income : ℚ) (requested : ℤ) (emi : ℚ) :
    UnderwritingDecision × ℤ :=
  if score < 700 then (.REJECTED, 0)
  else if emi > income * 0.5 then (.REJECTED, 0)
  else if requested > referenceMaxEligible score income then
    (.CONDITIONAL, referenceMaxEligible score income)
  else (.APPROVED, requested)

/-- Unrounded credit adjustment of `_calculate_rate_components`
(`-0.5 * ((credit_score - 700) // 50)` when the score exceeds 700). -/
def rawCreditAdjustment (credit_score : ℤ) : ℚ :=
  if credit_score > 700 then (-0.5) * (((credit_score - 700).fdiv 50 : ℤ) : ℚ) else 0

/-- Unrounded tenure adjustment of `_calculate_rate_components`
(`0.2 * max(0, tenure_months / 12 - 3)`, true division). -/
def rawTenureAdjustment (tenure_months : ℤ) : ℚ :=
  0.2 * max 0 ((tenure_months : ℚ) / 12 - 3)

structure RateComponents where
  base : ℚ
  credit_adjustment : ℚ
  tenure_adjustment : ℚ
deriving DecidableEq, Repr

/-- Method `_calculate_rate_components`: each adjustment is reported rounded
to 2 decimals. -/
def calculate_rate_components (credit_score tenure_months : ℤ) : RateComponents :=
  { base := BASE_RATE
    credit_adjustment := pyRound2 (rawCreditAdjustment credit_score)
    tenure_adjustment := pyRound2 (rawTenureAdjustment tenure_months) }

/-- Method `_apply_rate_bounds`: clamp to `[9.5, 18.0]`, then `round(·, 2)`. -/
def apply_rate_bounds (rate : ℚ) : ℚ :=
  pyRound2 (max MIN_INTEREST_RATE (min MAX_INTEREST_RATE rate))

/-- Final rate as composed in `UnderwritingAgent.execute`. -/
def final_interest_rate (credit_score tenure_months : ℤ) : ℚ :=
  apply_rate_bounds (BASE_RATE +
    (calculate_rate_components credit_score tenure_months).credit_adjustment +
    (calculate_rate_components credit_score tenure_months).tenure_adjustment)

/-- Tenure adjustment as the words of the spec for claim C2 read: +0.2 per
FULL year of tenure beyond 3 years, never negative.  Modelled from the
spec sentence, to be compared with `rawTenureAdjustment`. -/
def specTenureAdjustmentFullYears (tenure_months : ℤ) : ℚ :=
  0.2 * max 0 (((tenure_months.fdiv 12 : ℤ) : ℚ) - 3)

/-! ## Python string primitives (ASCII fragment used by the agents) -/

/-- Whitespace removed by Python `str.strip()` (ASCII fragment). -/
def isPySpace (c : Char) : Bool :=
  c = ' ' || c = '\t' || c = '\n' || c = '\r' || c.toNat = 11 || c.toNat = 12

/-- Python `str.strip()` on a character list. -/
def pyStrip (s : List Char) : List Char :=
  ((s.dropWhile isPySpace).reverse.dropWhile isPySpace).reverse

/-- The lower/upper ASCII letter pairs. -/
def asciiCasePairs : List (Char × Char) :=
  [('a','A'), ('b','B'), ('c','C'), ('d','D'), ('e','E'), ('f','F'), ('g','G'),
   ('h','H'), ('i','I'), ('j','J'), ('k','K'), ('l','L'), ('m','M'), ('n','N'),
   ('o','O'), ('p','P'), ('q','Q'), ('r','R'), ('s','S'), ('t','T'), ('u','U'),
   ('v','V'), ('w','W'), ('x','X'), ('y','Y'), ('z','Z')]

/-- Python `str.upper()` on one character (ASCII fragment). -/
def pyCharUpper (c : Char) : Char :=
  ((asciiCasePairs.find? (fun p => p.1 = c)).map Prod.snd).getD c

/-- Python `str.lower()` on one character (ASCII fragment). -/
def pyCharLower (c : Char) : Char :=
  ((asciiCasePairs.find? (fun p => p.2 = c)).map Prod.fst).getD c

def pyUpper (s : List Char) : List Char := s.map pyCharUpper
def pyLower (s : List Char) : List Char := s.map pyCharLower

theorem pyCharUpper_of_pair : ∀ p ∈ asciiCasePairs, pyCharUpper p.2 = p.2 := by
  decide

theorem pyCharUpper_idem (c : Char) : pyCharUpper (pyCharUpper c) = pyCharUpper c := by
  unfold pyCharUpper
  cases h : asciiCasePairs.find? (fun p => p.1 = c) with
  | none => simp [h]
  | some p =>
      have hm : p ∈ asciiCasePairs := List.mem_of_find?_eq_some h
      have := pyCharUpper_of_pair p hm
      simpa [h, pyCharUpper] using this

theorem pyUpper_idem (s : List Char) : pyUpper (pyUpper s) = pyUpper s := by
  unfold pyUpper
  rw [List.map_map]
  exact List.map_congr_left (fun c _ => pyCharUpper_idem c)

/-! ## KYC validator (`agents/verification_agent.py`, `services/mock_data.py`) -/

def isAsciiUpperAlpha (c : Char) : Bool := 'A' ≤ c && c ≤ 'Z'
def isAsciiDigit (c : Char) : Bool := '0' ≤ c && c ≤ '9'

/-- Method `_validate_pan_format`: the regular expression
`^[A-Z]{5}\d{4}[A-Z]$` on the stripped, upper-cased identifier. -/
def validate_pan_format (pan : List Char) : Bool :=
  pan.length == 10 && (pan.take 5).all isAsciiUpperAlpha &&
    ((pan.drop 5).take 4).all isAsciiDigit && (pan.drop 9).all isAsciiUpperAlpha

inductive KYCStatus where
  | PENDING | VERIFIED | FAILED
deriving DecidableEq, Repr

structure CRMRecord where
  name : List Char
  pan : List Char
  employment_type : List Char
  monthly_income : ℤ
deriving DecidableEq, Repr

/-- Table `CRM_DATABASE` from `services/mock_data.py` (insertion order kept). -/
def CRM_DATABASE : List (List Char × CRMRecord) :=
  [("CUST001".data, ⟨"Rajesh Kumar".data, "ABCDE1234F".data, "SALARIED".data, 75000⟩),
   ("CUST002".data, ⟨"Priya Sharma".data, "FGHIJ5678K".data, "SALARIED".data, 95000⟩),
   ("CUST003".data, ⟨"Amit Patel".data, "KLMNO9012P".data, "SELF_EMPLOYED".data, 120000⟩),
   ("CUST004".data, ⟨"Sneha Reddy".data, "QRSTU3456V".data, "SALARIED".data, 55000⟩),
   ("CUST005".data, ⟨"Vikram Singh".data, "WXYZ7890A".data, "BUSINESS".data, 150000⟩),
   ("CUST006".data, ⟨"Anita Desai".data, "BCDEF2345G".data, "SALARIED".data, 45000⟩),
   ("CUST007".data, ⟨"Karan Mehta".data, "GHIJK6789L".data, "SALARIED".data, 85000⟩),
   ("CUST008".data, ⟨"Deepa Iyer".data, "MNOPQ0123R".data, "SELF_EMPLOYED".data, 65000⟩),
   ("CUST009".data, ⟨"Rahul Gupta".data, "STUVW4567X".data, "SALARIED".data, 110000⟩),
   ("CUST010".data, ⟨"Meera Nair".data, "YZABC8901D".data, "SALARIED".data, 20000⟩)]

/-- Method `MockCRMService.lookup_by_pan`: first record whose PAN equals the
upper-cased query. -/
def lookup_by_pan (pan : List Char) : Option (List Char × CRMRecord) :=
  CRM_DATABASE.find? (fun e => decide (e.2.pan = pyUpper pan))

/-- Method `MockCRMService.verify_customer`: `(is_valid, customer_id,
customer_data)`; a name match is a case-insensitive substring match in
either direction, the employment type must equal the one in the registry. -/
def verify_customer (name pan employment_type : List Char) :
    Bool × Option (List Char) × Option CRMRecord :=
  match lookup_by_pan pan with
  | none => (false, none, none)
  | some (cid, r) =>
      let name_match := decide (pyLower name <:+: pyLower r.name) ||
        decide (pyLower r.name <:+: pyLower name)
      let employment_match := decide (r.employment_type = pyUpper employment_type)
      if name_match && employment_match then (true, some cid, some r)
      else (false, some cid, some r)

structure VerificationOutput where
  kyc_status : KYCStatus
  employment_type : List Char
  monthly_income : ℤ
  risk_flags : List (List Char)
deriving DecidableEq, Repr

/-- Method `VerificationAgent.execute`, parametric in the registry service so
that "the registry is never consulted" can be stated as independence
from it.  A raised `ValueError` is the `Except.error` case. -/
def executeVerification
    (verify : List Char → List Char → List Char → Bool × Option (List Char) × Option CRMRecord)
    (name pan employment_type : List Char) : Except (List Char) VerificationOutput :=
  let name' := pyStrip name
  let pan' := pyUpper (pyStrip pan)
  let employment' := pyUpper (pyStrip employment_type)
  if name' = [] ∨ pan' = [] ∨ employment' = [] then
    .error "Missing required fields: name, pan, employment_type".data
  else if validate_pan_format pan' = false then
    .ok ⟨.FAILED, "UNKNOWN".data, 0, ["INVALID_PAN_FORMAT".data]⟩
  else
    match verify name' pan' employment' with
    | (_, _, none) => .ok ⟨.FAILED, employment', 0, ["CUSTOMER_NOT_FOUND".data]⟩
    | (false, _, some _) => .ok ⟨.FAILED, employment', 0, ["DATA_MISMATCH".data]⟩
    | (true, _, some r) =>
        .ok ⟨.VERIFIED, r.employment_type, r.monthly_income,
          (if r.monthly_income < 25000 then ["LOW_INCOME".data] else []) ++
          (if r.employment_type ≠ employment' then ["EMPLOYMENT_TYPE_MISMATCH".data] else [])⟩

/-! ## Sales agent (`agents/sales_agent.py`, `utils/emi_calculator.py`) -/

/-- Function `get_interest_range` from `utils/emi_calculator.py`. -/
def get_interest_range (loan_amount : ℤ) : List Char :=
  if loan_amount < 300000 then "13% - 15%".data
  else if loan_amount ≤ 1000000 then "11.5% - 14%".data
  else "10.5% - 13%".data

mutual
/-- Scanner for `re.findall(r'(\d+\.?\d*)', s)`: outside a number. -/
def scanNumsOut : List Char → List (List Char)
  | [] => []
  | c :: r => if isAsciiDigit c then scanNumsInt r [c] else scanNumsOut r

/-- Scanner state: inside the integer part (accumulator reversed). -/
def scanNumsInt : List Char → List Char → List (List Char)
  | [], acc => [acc.reverse]
  | c :: r, acc =>
      if isAsciiDigit c then scanNumsInt r (c :: acc)
      else if c = '.' then scanNumsFrac r ('.' :: acc)
      else acc.reverse :: scanNumsOut r

/-- Scanner state: after the optional dot. -/
def scanNumsFrac : List Char → List Char → List (List Char)
  | [], acc => [acc.reverse]
  | c :: r, acc =>
      if isAsciiDigit c then scanNumsFrac r (c :: acc)
      else acc.reverse :: scanNumsOut r
end

def digitsToNat (s : List Char) : ℕ :=
  s.foldl (fun n c => 10 * n + (c.toNat - 48)) 0

/-- Python `float(tok)` for a token matched by `\d+\.?\d*`. -/
def parseNumToken (tok : List Char) : ℚ :=
  let intPart := tok.takeWhile (fun c => c ≠ '.')
  let fracPart := (tok.dropWhile (fun c => c ≠ '.')).drop 1
  (digitsToNat intPart : ℚ) + (digitsToNat fracPart : ℚ) / (10 : ℚ) ^ fracPart.length

/-- Method `SalesAgent._get_mid_rate`: mid-point of the first two numbers found
in the interest-range string, default 12.0. -/
def get_mid_rate (s : List Char) : ℚ :=
  match scanNumsOut s with
  | low :: high :: _ => (parseNumToken low + parseNumToken high) / 2
  | _ => 12

structure SalesOutput where
  requested_amount : ℤ
  tenure_months : ℤ
  estimated_emi : ℚ
  interest_range : List Char
deriving DecidableEq, Repr

/-- Python truthiness of an optional integer field (`None` and `0` are
falsy; every other integer, negative ones included, is truthy). -/
def pyTruthyInt : Option ℤ → Bool
  | none => false
  | some v => !(v == 0)

/-- Method `SalesAgent.execute`: validation `if not requested_amount or not
tenure_months` then quote computation. -/
def salesExecute (requested_amount tenure_months : Option ℤ) :
    Except (List Char) SalesOutput :=
  if pyTruthyInt requested_amount = false ∨ pyTruthyInt tenure_months = false then
    .error "Missing required fields: requested_amount and tenure_months".data
  else
    match requested_amount, tenure_months with
    | some a, some t =>
        let range := get_interest_range a
        .ok ⟨a, t, calculate_emi (a : ℚ) (get_mid_rate range) t, range⟩
    | _, _ => .error "Missing required fields: requested_amount and tenure_months".data

/-! ## Orchestrator (`agents/master_agent.py`) -/

inductive ConversationStage where
  | SALES | KYC | UNDERWRITING | SANCTION | COMPLETED | FAILED
deriving DecidableEq, Repr

open ConversationStage

/-- Outcomes of the external calls and worker computations during one
customer turn; each field abstracts one branch condition of the
corresponding handler in `master_agent.py`. -/
structure TurnEvents where
  /-- intent detection returned `requires_clarification` -/
  clarify : Bool
  /-- SALES: both `amount` and `tenure_months` entities present -/
  salesFields : Bool
  /-- SALES: the sales agent raised -/
  salesErr : Bool
  /-- KYC: name, PAN and employment type all extracted -/
  kycFields : Bool
  /-- KYC: the verification agent (or CRM lookup / save) raised -/
  kycErr : Bool
  /-- KYC: verification returned status FAILED -/
  kycFailed : Bool
  /-- UNDERWRITING: sales or KYC data missing on the session -/
  uwMissing : Bool
  /-- UNDERWRITING: the underwriting agent raised -/
  uwErr : Bool
  /-- UNDERWRITING: the decision -/
  uwDecision : UnderwritingDecision
  /-- SANCTION: underwriting data missing on the session -/
  sanctionMissing : Bool
  /-- SANCTION: EMI recomputation or sanction agent raised -/
  sanctionErr : Bool
deriving DecidableEq, Repr

/-- Handler `_handle_sanction_stage`: stage after the handler runs, given the
stage it was entered at. -/
def handleSanctionStage (e : TurnEvents) (s : ConversationStage) : ConversationStage :=
  if e.sanctionMissing then s
  else if e.sanctionErr then s
  else COMPLETED

/-- Handler `_handle_underwriting_stage`: on APPROVED/CONDITIONAL it transitions
to SANCTION and synchronously chains into `_handle_sanction_stage`. -/
def handleUnderwritingStage (e : TurnEvents) (s : ConversationStage) : ConversationStage :=
  if e.uwMissing then s
  else if e.uwErr then s
  else match e.uwDecision with
    | .REJECTED => FAILED
    | _ => handleSanctionStage e SANCTION

/-- Handler `_handle_kyc_stage`: on VERIFIED it transitions to UNDERWRITING and
chains into `_handle_underwriting_stage`. -/
def handleKycStage (e : TurnEvents) : ConversationStage :=
  if e.kycFields = false then KYC
  else if e.kycErr then KYC
  else if e.kycFailed then FAILED
  else handleUnderwritingStage e UNDERWRITING

/-- Handler `_handle_sales_stage`. -/
def handleSalesStage (e : TurnEvents) : ConversationStage :=
  if e.salesFields && !e.salesErr then KYC else SALES

/-- Dispatch `_process_by_stage`: the session stage after the handler of
the current stage runs (terminal stages only return a fixed message). -/
def processByStage (e : TurnEvents) : ConversationStage → ConversationStage
  | SALES => handleSalesStage e
  | KYC => handleKycStage e
  | UNDERWRITING => handleUnderwritingStage e UNDERWRITING
  | SANCTION => handleSanctionStage e SANCTION
  | COMPLETED => COMPLETED
  | FAILED => FAILED

/-- Turn entry `process_message`: a low-confidence intent is answered with a
clarification prompt and no stage change. -/
def processTurn (e : TurnEvents) (s : ConversationStage) : ConversationStage :=
  if e.clarify then s else processByStage e s

/-- Position of a stage along SALES → KYC → UNDERWRITING → SANCTION →
COMPLETED; the absorbing FAILED state sits above every stage. -/
def stageRank : ConversationStage → ℕ
  | SALES => 0
  | KYC => 1
  | UNDERWRITING => 2
  | SANCTION => 3
  | COMPLETED => 4
  | FAILED => 5

/-- Stages of a session over a sequence of turns, starting at SALES. -/
def stageTrace (es : List TurnEvents) : List ConversationStage :=
  List.scanl (fun s e => processTurn e s) SALES es

/-- The customer-visible message of the SALES handler `except` branch
(`master_agent.py` line 176): independent of the exception. -/
def salesStageErrorMessage (_err : List Char) : List Char :=
  ("I encountered an error processing your loan request. " ++
   "Please try again with the loan amount and tenure.").data

/-- The KYC handler `except` branch message (line 258). -/
def kycStageErrorMessage (_err : List Char) : List Char :=
  ("I encountered an error during verification. " ++
   "Please provide your name, PAN, and employment type again.").data

/-- The UNDERWRITING handler `except` branch message (line 341):
`f"Error during underwriting: {str(e)}"`. -/
def underwritingStageErrorMessage (err : List Char) : List Char :=
  "Error during underwriting: ".data ++ err

/-- The SANCTION handler `except` branch message (line 391):
`f"Error generating sanction letter: {str(e)}"`. -/
def sanctionStageErrorMessage (err : List Char) : List Char :=
  "Error generating sanction letter: ".data ++ err

/-- A helper for an `Except` value being a success. -/
def exceptIsOk {ε α : Type} : Except ε α → Bool
  | .ok _ => true
  | .error _ => false

end Loan

deriving instance DecidableEq for Except

namespace Loan

theorem pyRound2_ge_hundredth {q : ℚ} (h : 1/60 ≤ q) : 1/100 ≤ pyRound2 q := by
  have h5 : (5 : ℚ)/3 ≤ q * 100 := by linarith
  have h1 := roundHalfEven_ge_one h5
  have h1' : (1 : ℚ) ≤ (roundHalfEven (q * 100) : ℚ) := by exact_mod_cast h1
  unfold pyRound2
  linarith

/-! ## Theorems for the claims -/

/-- C1: for every underwriting input and fetched credit score, the
eligibility evaluation (decision, approved amount) equals the reference
definition given in the claim: score < 700 → REJECTED/0; EMI above 50%
of income → REJECTED/0; otherwise max eligible 2,000,000 / 1,000,000 /
500,000 by the score–income brackets, CONDITIONAL at the max when the
request exceeds it, else APPROVED at the requested principal. -/
theorem C1_eligibility_matches_reference (score : ℤ) (income : ℚ)
    (requested : ℤ) (emi : ℚ) :
    ((evaluate_eligibility score income requested emi).1,
      (evaluate_eligibility score income requested emi).2.1) =
      referenceEligibility score income requested emi := by
  unfold evaluate_eligibility referenceEligibility max_eligible_amount referenceMaxEligible
  split_ifs <;> rfl

/-- C2 counterexample: the claim says every tenure from 36 to 47 months
yields tenure adjustment exactly 0 (+0.2 per FULL year beyond 3 years);
the code divides by 12 with true division, so 40 months gives
`round(0.2·(40/12 − 3), 2) = 0.07 ≠ 0`, while the full-year reading
gives 0. -/
theorem C2_counterexample :
    (calculate_rate_components 700 40).tenure_adjustment = 7/100 ∧
    specTenureAdjustmentFullYears 40 = 0 ∧ ((7 : ℚ)/100) ≠ 0 := by
  refine ⟨?_, ?_, by norm_num⟩
  · have hraw : rawTenureAdjustment 40 = 1/15 := by
      unfold rawTenureAdjustment
      rw [show (((40 : ℤ) : ℚ))/12 - 3 = 1/3 by push_cast; norm_num]
      rw [max_eq_right (by norm_num : (0 : ℚ) ≤ 1/3)]
      norm_num
    have hmul : rawTenureAdjustment 40 * 100 = 20/3 := by rw [hraw]; norm_num
    have hfl : ⌊(20 : ℚ)/3⌋ = 6 := by
      rw [Int.floor_eq_iff]
      norm_num
    simp only [calculate_rate_components]
    unfold pyRound2 roundHalfEven
    rw [hmul, hfl]
    norm_num
  · unfold specTenureAdjustmentFullYears
    rw [show Int.fdiv 40 12 = 3 from by decide]
    push_cast
    simp

/-- C2 amended: the tenure adjustment is `round(0.2·(tenure/12 − 3), 2)`
on fractional years, floored at 0 before rounding; it is never negative,
and it is 0 exactly for tenures of at most 36 months (so 37–47 months
already yield a positive adjustment). -/
theorem C2_amended_tenure_adjustment (score tenure : ℤ) :
    0 ≤ (calculate_rate_components score tenure).tenure_adjustment ∧
    ((calculate_rate_components score tenure).tenure_adjustment = 0 ↔ tenure ≤ 36) := by
  simp only [calculate_rate_components]
  constructor
  · apply pyRound2_nonneg
    unfold rawTenureAdjustment
    have h0 : (0 : ℚ) ≤ max 0 ((tenure : ℚ) / 12 - 3) := le_max_left 0 _
    nlinarith
  · constructor
    · intro h
      by_contra ht
      push_neg at ht
      have h37 : (37 : ℚ) ≤ (tenure : ℚ) := by exact_mod_cast ht
      have harg : (1 : ℚ)/12 ≤ (tenure : ℚ) / 12 - 3 := by linarith
      have hmax : max 0 ((tenure : ℚ) / 12 - 3) = (tenure : ℚ) / 12 - 3 :=
        max_eq_right (by linarith)
      have hq : (1 : ℚ)/60 ≤ rawTenureAdjustment tenure := by
        unfold rawTenureAdjustment
        rw [hmax]
        nlinarith
      have := pyRound2_ge_hundredth hq
      rw [h] at this
      linarith
    · intro ht
      have h36 : (tenure : ℚ) ≤ 36 := by exact_mod_cast ht
      have hmax : max 0 ((tenure : ℚ) / 12 - 3) = 0 := max_eq_left (by linarith)
      have hq : rawTenureAdjustment tenure = 0 := by
        unfold rawTenureAdjustment
        rw [hmax, mul_zero]
      rw [hq, pyRound2_zero]

/-- Clamping an integer number of hundredths to `[9.5, 18.0]` again
gives an integer number of hundredths. -/
theorem clamp_int_div100 (a : ℤ) :
    max MIN_INTEREST_RATE (min MAX_INTEREST_RATE ((a : ℚ) / 100)) =
      ((max 950 (min 1800 a) : ℤ) : ℚ) / 100 := by
  have hmono : Monotone (fun x : ℚ => x / 100) := by
    intro x y hxy
    exact div_le_div_of_nonneg_right hxy (by norm_num) |>.trans_eq rfl
  rw [Int.cast_max, Int.cast_min]
  rw [hmono.map_max, hmono.map_min]
  norm_num [MIN_INTEREST_RATE, MAX_INTEREST_RATE]

/-- C3: the final interest rate equals base 11.0 plus the two rounded
adjustments, clamped to `[9.5, 18.0]` with the clamp applied last (the
trailing `round(·, 2)` of `_apply_rate_bounds` is the identity there),
and it always lies within `[9.5, 18.0]`. -/
theorem C3_final_rate_clamped (score tenure : ℤ) :
    final_interest_rate score tenure =
      max MIN_INTEREST_RATE (min MAX_INTEREST_RATE
        (BASE_RATE + (calculate_rate_components score tenure).credit_adjustment +
          (calculate_rate_components score tenure).tenure_adjustment)) ∧
    MIN_INTEREST_RATE ≤ final_interest_rate score tenure ∧
    final_interest_rate score tenure ≤ MAX_INTEREST_RATE := by
  obtain ⟨k₁, h₁⟩ := pyRound2_eq_int_div100 (rawCreditAdjustment score)
  obtain ⟨k₂, h₂⟩ := pyRound2_eq_int_div100 (rawTenureAdjustment tenure)
  have hsum : BASE_RATE + (calculate_rate_components score tenure).credit_adjustment +
      (calculate_rate_components score tenure).tenure_adjustment =
      ((1100 + k₁ + k₂ : ℤ) : ℚ) / 100 := by
    simp only [calculate_rate_components, h₁, h₂, BASE_RATE]
    push_cast
    ring
  have hfin : final_interest_rate score tenure =
      max MIN_INTEREST_RATE (min MAX_INTEREST_RATE
        (BASE_RATE + (calculate_rate_components score tenure).credit_adjustment +
          (calculate_rate_components score tenure).tenure_adjustment)) := by
    unfold final_interest_rate apply_rate_bounds
    rw [hsum, clamp_int_div100, pyRound2_int_div100, ← clamp_int_div100, ← hsum]
  refine ⟨hfin, ?_, ?_⟩
  · rw [hfin]
    exact le_max_left _ _
  · rw [hfin]
    apply max_le
    · norm_num [MIN_INTEREST_RATE, MAX_INTEREST_RATE]
    · exact min_le_left _ _

/-- C4: the EMI function coincides with the reference definition in the
claim: 0 at tenure 0; `p/n` without rounding when the monthly rate
`r/1200` is 0; otherwise the amortizing formula rounded to 2 decimals. -/
theorem C4_emi_matches_reference (p r : ℚ) (n : ℤ) :
    calculate_emi p r n = specEmi p r n := by
  unfold calculate_emi specEmi
  norm_num

/-- C6: any KYC input that passes the required-fields check but whose
stripped, upper-cased identifier fails the PAN format check yields a
FAILED result whose risk flags are exactly `[INVALID_PAN_FORMAT]`,
without consulting the registry (the result is the same under every
registry service). -/
theorem C6_invalid_pan_format
    (v₁ v₂ : List Char → List Char → List Char → Bool × Option (List Char) × Option CRMRecord)
    (name pan employment : List Char)
    (hn : pyStrip name ≠ []) (hp : pyUpper (pyStrip pan) ≠ [])
    (he : pyUpper (pyStrip employment) ≠ [])
    (hfmt : validate_pan_format (pyUpper (pyStrip pan)) = false) :
    executeVerification v₁ name pan employment =
      Except.ok ⟨.FAILED, "UNKNOWN".data, 0, ["INVALID_PAN_FORMAT".data]⟩ ∧
    executeVerification v₁ name pan employment =
      executeVerification v₂ name pan employment := by
  have hcond : ¬(pyStrip name = [] ∨ pyUpper (pyStrip pan) = [] ∨
      pyUpper (pyStrip employment) = []) := by
    push_neg
    exact ⟨hn, hp, he⟩
  have h : ∀ v, executeVerification v name pan employment =
      Except.ok ⟨.FAILED, "UNKNOWN".data, 0, ["INVALID_PAN_FORMAT".data]⟩ := by
    intro v
    simp only [executeVerification]
    rw [if_neg hcond, if_pos hfmt]
  exact ⟨h v₁, (h v₁).trans (h v₂).symm⟩

/-- C6 witness: the scenario from the spec, identifier "INVALID123". -/
theorem C6_witness :
    executeVerification verify_customer "John Doe".data "INVALID123".data "SALARIED".data =
      Except.ok ⟨.FAILED, "UNKNOWN".data, 0, ["INVALID_PAN_FORMAT".data]⟩ ∧
    executeVerification verify_customer "John Doe".data "INVALID123".data "SALARIED".data =
      executeVerification (fun _ _ _ => (false, none, none))
        "John Doe".data "INVALID123".data "SALARIED".data :=
  C6_invalid_pan_format verify_customer (fun _ _ _ => (false, none, none))
    "John Doe".data "INVALID123".data "SALARIED".data
    (by decide) (by decide) (by decide) (by decide)

/-- C10: a KYC input with a missing/empty (after trimming) name, PAN or
employment type makes the validator raise a validation error — it does
not return a FAILED result — and the registry is never consulted. -/
theorem C10_missing_fields_raise
    (v₁ v₂ : List Char → List Char → List Char → Bool × Option (List Char) × Option CRMRecord)
    (name pan employment : List Char)
    (h : pyStrip name = [] ∨ pyUpper (pyStrip pan) = [] ∨
      pyUpper (pyStrip employment) = []) :
    executeVerification v₁ name pan employment =
      Except.error "Missing required fields: name, pan, employment_type".data ∧
    executeVerification v₁ name pan employment =
      executeVerification v₂ name pan employment := by
  have hh : ∀ v, executeVerification v name pan employment =
      Except.error "Missing required fields: name, pan, employment_type".data := by
    intro v
    simp only [executeVerification]
    rw [if_pos h]
  exact ⟨hh v₁, (hh v₁).trans (hh v₂).symm⟩

/-- C10 witness: an empty name raises, registry-independently. -/
theorem C10_witness :
    executeVerification verify_customer "".data "ABCDE1234F".data "SALARIED".data =
      Except.error "Missing required fields: name, pan, employment_type".data ∧
    executeVerification verify_customer "".data "ABCDE1234F".data "SALARIED".data =
      executeVerification (fun _ _ _ => (false, none, none))
        "".data "ABCDE1234F".data "SALARIED".data :=
  C10_missing_fields_raise verify_customer (fun _ _ _ => (false, none, none))
    "".data "ABCDE1234F".data "SALARIED".data (Or.inl (by decide))

/-- C7 counterexample: "Rajesh Kumar" / PAN ABCDE1234F resolves to a
registry record with matching name but employment type SALARIED; stating
BUSINESS does not produce a VERIFIED result carrying
EMPLOYMENT_TYPE_MISMATCH as the claim says — it produces FAILED with
DATA_MISMATCH, because `verify_customer` only reports a match when the
stated employment type equals the registry value. -/
theorem C7_counterexample :
    executeVerification verify_customer "Rajesh Kumar".data "ABCDE1234F".data "BUSINESS".data =
      Except.ok ⟨.FAILED, "BUSINESS".data, 0, ["DATA_MISMATCH".data]⟩ ∧
    lookup_by_pan "ABCDE1234F".data =
      some ("CUST001".data, ⟨"Rajesh Kumar".data, "ABCDE1234F".data, "SALARIED".data, 75000⟩) ∧
    "BUSINESS".data ≠ "SALARIED".data := by
  exact ⟨by decide, by decide, by decide⟩

/-- C7 amended: when the registry lookup reports a match
(`is_valid = true`, which already forces the stated employment type to
equal the registry value), the validator emits VERIFIED carrying the
registry employment type and income, with risk flags exactly
`[LOW_INCOME]` when the registry income is below 25,000 and `[]`
otherwise; `EMPLOYMENT_TYPE_MISMATCH` is never emitted. -/
theorem C7_amended_verified_flags (name pan employment cid : List Char) (r : CRMRecord)
    (hn : pyStrip name ≠ []) (hp : pyUpper (pyStrip pan) ≠ [])
    (he : pyUpper (pyStrip employment) ≠ [])
    (hfmt : validate_pan_format (pyUpper (pyStrip pan)) = true)
    (hv : verify_customer (pyStrip name) (pyUpper (pyStrip pan))
      (pyUpper (pyStrip employment)) = (true, some cid, some r)) :
    executeVerification verify_customer name pan employment =
      Except.ok ⟨.VERIFIED, r.employment_type, r.monthly_income,
        if r.monthly_income < 25000 then ["LOW_INCOME".data] else []⟩ ∧
    r.employment_type = pyUpper (pyStrip employment) := by
  have hemp : r.employment_type = pyUpper (pyStrip employment) := by
    unfold verify_customer at hv
    cases hlk : lookup_by_pan (pyUpper (pyStrip pan)) with
    | none =>
        rw [hlk] at hv
        exact absurd hv (by simp)
    | some p =>
        obtain ⟨cid', r'⟩ := p
        rw [hlk] at hv
        simp only [] at hv
        by_cases hc : ((decide (pyLower (pyStrip name) <:+: pyLower r'.name) ||
            decide (pyLower r'.name <:+: pyLower (pyStrip name))) &&
            decide (r'.employment_type = pyUpper (pyUpper (pyStrip employment)))) = true
        · rw [if_pos hc] at hv
          have hr : r' = r := by
            have := congrArg (fun x => x.2.2) hv
            simpa using this
          have hm := (Bool.and_eq_true _ _ |>.mp hc).2
          have hmm := of_decide_eq_true hm
          rw [hr, pyUpper_idem] at hmm
          exact hmm
        · rw [if_neg hc] at hv
          exact absurd hv (by simp)
  have hcond : ¬(pyStrip name = [] ∨ pyUpper (pyStrip pan) = [] ∨
      pyUpper (pyStrip employment) = []) := by
    push_neg
    exact ⟨hn, hp, he⟩
  refine ⟨?_, hemp⟩
  simp only [executeVerification]
  rw [if_neg hcond, if_neg (by simp [hfmt]), hv]
  simp [hemp]

/-- C7 witness: a matching low-income customer ("Meera Nair"), VERIFIED
with exactly the LOW_INCOME flag. -/
theorem C7_witness :
    executeVerification verify_customer "Meera Nair".data "YZABC8901D".data "SALARIED".data =
      Except.ok ⟨.VERIFIED,
        (CRMRecord.mk "Meera Nair".data "YZABC8901D".data "SALARIED".data 20000).employment_type,
        (CRMRecord.mk "Meera Nair".data "YZABC8901D".data "SALARIED".data 20000).monthly_income,
        if (CRMRecord.mk "Meera Nair".data "YZABC8901D".data "SALARIED".data 20000).monthly_income
            < 25000 then ["LOW_INCOME".data] else []⟩ ∧
    (CRMRecord.mk "Meera Nair".data "YZABC8901D".data "SALARIED".data 20000).employment_type =
      pyUpper (pyStrip "SALARIED".data) :=
  C7_amended_verified_flags "Meera Nair".data "YZABC8901D".data "SALARIED".data "CUST010".data
    ⟨"Meera Nair".data, "YZABC8901D".data, "SALARIED".data, 20000⟩
    (by decide) (by decide) (by decide) (by decide) (by decide)

/-- C9 counterexample: a negative requested principal is truthy in
Python, so `SalesAgent.execute` does NOT fail with a validation error on
`requested_amount = -100000, tenure = 12`; it produces a quote. -/
theorem C9_counterexample :
    exceptIsOk (salesExecute (some (-100000)) (some 12)) = true := by
  decide

/-- C9 amended: the sales computation fails with a validation error
exactly when the principal or the tenure is missing (`None`) or zero —
Python falsiness — and otherwise (negative values included) produces a
quote. -/
theorem C9_amended_validation (ra tm : Option ℤ) :
    exceptIsOk (salesExecute ra tm) = (pyTruthyInt ra && pyTruthyInt tm) := by
  cases ra with
  | none => simp [salesExecute, pyTruthyInt, exceptIsOk]
  | some a =>
      cases tm with
      | none => simp [salesExecute, pyTruthyInt, exceptIsOk]
      | some t =>
          by_cases ha : a = 0
          · simp [salesExecute, pyTruthyInt, exceptIsOk, ha]
          · by_cases ht : t = 0
            · simp [salesExecute, pyTruthyInt, exceptIsOk, ht]
            · simp [salesExecute, pyTruthyInt, exceptIsOk, ha, ht]

/-- C8 counterexample: the UNDERWRITING and SANCTION stage handlers
format the raw exception text into the customer message, so the message
returned to the customer does contain the raw internal error text,
contrary to the claim. -/
theorem C8_counterexample :
    "ZeroDivisionError: division by zero".data <:+:
      underwritingStageErrorMessage "ZeroDivisionError: division by zero".data ∧
    "ZeroDivisionError: division by zero".data <:+:
      sanctionStageErrorMessage "ZeroDivisionError: division by zero".data :=
  ⟨List.IsSuffix.isInfix ⟨_, rfl⟩, List.IsSuffix.isInfix ⟨_, rfl⟩⟩

/-- C8 amended: worker exceptions never escape the orchestrator — every
handler turns them into a returned message and leaves the stage
unchanged — and the SALES and KYC handlers reply with a fixed
customer-safe message independent of the exception, but the UNDERWRITING
and SANCTION handlers embed the raw exception text in their reply. -/
theorem C8_amended_error_messages (e₁ e₂ : List Char) (ev : TurnEvents) :
    salesStageErrorMessage e₁ = salesStageErrorMessage e₂ ∧
    kycStageErrorMessage e₁ = kycStageErrorMessage e₂ ∧
    e₁ <:+: underwritingStageErrorMessage e₁ ∧
    e₁ <:+: sanctionStageErrorMessage e₁ ∧
    processTurn { ev with clarify := false, uwMissing := false, uwErr := true }
      ConversationStage.UNDERWRITING = ConversationStage.UNDERWRITING ∧
    processTurn { ev with clarify := false, sanctionMissing := false, sanctionErr := true }
      ConversationStage.SANCTION = ConversationStage.SANCTION := by
  refine ⟨rfl, rfl, List.IsSuffix.isInfix ⟨_, rfl⟩, List.IsSuffix.isInfix ⟨_, rfl⟩, ?_, ?_⟩ <;>
    simp [processTurn, processByStage, handleUnderwritingStage, handleSanctionStage]

theorem three_le_rank_handleSanction (e : TurnEvents) :
    3 ≤ stageRank (handleSanctionStage e ConversationStage.SANCTION) := by
  unfold handleSanctionStage
  split_ifs <;> decide

theorem two_le_rank_handleUnderwriting (e : TurnEvents) :
    2 ≤ stageRank (handleUnderwritingStage e ConversationStage.UNDERWRITING) := by
  unfold handleUnderwritingStage
  have hs := three_le_rank_handleSanction e
  split_ifs
  · decide
  · decide
  · cases e.uwDecision
    · show 2 ≤ stageRank (handleSanctionStage e ConversationStage.SANCTION)
      omega
    · show 2 ≤ stageRank (handleSanctionStage e ConversationStage.SANCTION)
      omega
    · show 2 ≤ stageRank ConversationStage.FAILED
      decide

theorem stageRank_le_processTurn (e : TurnEvents) (s : ConversationStage) :
    stageRank s ≤ stageRank (processTurn e s) := by
  unfold processTurn
  split_ifs with hc
  · exact le_refl _
  · have hs := three_le_rank_handleSanction e
    have hu := two_le_rank_handleUnderwriting e
    cases s with
    | SALES =>
        simp only [processByStage, handleSalesStage]
        split_ifs <;> decide
    | KYC =>
        simp only [processByStage, handleKycStage]
        split_ifs
        · decide
        · decide
        · decide
        · show 1 ≤ stageRank (handleUnderwritingStage e ConversationStage.UNDERWRITING)
          omega
    | UNDERWRITING =>
        show 2 ≤ stageRank (handleUnderwritingStage e ConversationStage.UNDERWRITING)
        omega
    | SANCTION =>
        show 3 ≤ stageRank (handleSanctionStage e ConversationStage.SANCTION)
        omega
    | COMPLETED => simp only [processByStage]; decide
    | FAILED => simp only [processByStage]; decide

theorem scanl_chain' {α β : Type} (f : α → β → α) (R : α → α → Prop)
    (h : ∀ s e, R s (f s e)) : ∀ (l : List β) (s : α), (List.scanl f s l).Chain' R := by
  intro l
  induction l with
  | nil =>
      intro s
      simp
  | cons e t ih =>
      intro s
      rw [List.scanl_cons]
      cases t with
      | nil => simp [List.scanl, h s e]
      | cons b t' =>
          rw [List.scanl_cons]
          simp only [List.singleton_append]
          rw [List.chain'_cons]
          refine ⟨h s e, ?_⟩
          have hih := ih (f s e)
          rw [List.scanl_cons] at hih
          simpa using hih

/-- C5: over any sequence of orchestrator turns the stage only advances
along SALES → KYC → UNDERWRITING → SANCTION → COMPLETED or jumps into
the absorbing FAILED state (which ranks above every stage): the stage
rank never decreases on any turn, the terminal stages COMPLETED and
FAILED are never changed by a handler, and every reachable trace is
rank-monotone (so no earlier non-terminal stage is ever revisited). -/
theorem C5_stage_monotonic :
    (∀ e s, stageRank s ≤ stageRank (processTurn e s)) ∧
    (∀ e, processTurn e ConversationStage.COMPLETED = ConversationStage.COMPLETED ∧
      processTurn e ConversationStage.FAILED = ConversationStage.FAILED) ∧
    (∀ es, (stageTrace es).Chain' (fun a b => stageRank a ≤ stageRank b)) := by
  refine ⟨stageRank_le_processTurn, ?_, ?_⟩
  · intro e
    constructor <;> (unfold processTurn processByStage; split_ifs <;> rfl)
  · intro es
    exact scanl_chain' _ _ (fun s e => stageRank_le_processTurn e s) es ConversationStage.SALES

end Loan
